import Mathlib

/-!
Verification of the `DataLake` convenience layer (`communicate.py`).

The class wraps provider SDK calls (S3, IAM, Transfer Family).  Each method is
embedded as a pure Lean function parameterised by the provider's behaviour:
a provider call is a function returning `Except ClientError response`, and
the instance state (`region`, `server_id`) is passed and returned explicitly.
Python-level failures that are not provider `ClientError`s (TypeError on bad
subscripts, IndexError on out-of-range list access) are modelled by `PyErr`.
-/

namespace AwsLake

/-- A provider-side error as the code observes it: `e.response['Error']['Code']`
and `e.response['Error']['Message']`. -/
structure ClientError where
  code : String
  message : String
  deriving Repr, DecidableEq

/-- The failures a `DataLake` method can surface to its caller: a propagated
provider `ClientError`, or a Python runtime error raised by the method body
itself (TypeError from a bad subscript, KeyError from a missing dict key,
IndexError from an out-of-range list index). -/
inductive PyErr
  | clientError (e : ClientError)
  | typeError (msg : String)
  | keyError (k : String)
  | indexError
  deriving Repr, DecidableEq

/-- A Python value, as far as the embedded code needs: strings, integers,
lists and string-keyed dicts (the shape of SDK responses). -/
inductive PyVal
  | str (s : String)
  | int (n : Nat)
  | list (xs : List PyVal)
  | dict (kvs : List (String × PyVal))

/-- Python subscripting `v[k]`: dict lookup by string key (KeyError when the
key is missing), list indexing by integer (IndexError when out of range).
Indexing a list with a string raises TypeError, as Python does. -/
def getItem : PyVal → PyVal → Except PyErr PyVal
  | .dict kvs, .str k =>
      match kvs.find? (fun kv => kv.1 == k) with
      | some kv => .ok kv.2
      | none => .error (.keyError k)
  | .list xs, .int i =>
      match xs.get? i with
      | some v => .ok v
      | none => .error .indexError
  | .list _, .str _ => .error (.typeError "list indices must be integers")
  | _, _ => .error (.typeError "object is not subscriptable")

/-- Python iteration over a value, as used by the list comprehension in
`list_buckets`: lists yield their elements, dicts their keys, strings their
characters; anything else raises TypeError. -/
def pyIterate : PyVal → Except PyErr (List PyVal)
  | .list xs => .ok xs
  | .dict kvs => .ok (kvs.map (fun kv => .str kv.1))
  | .str s => .ok (s.toList.map (fun c => .str (String.mk [c])))
  | .int _ => .error (.typeError "object is not iterable")

/-- `DataLake.list_buckets`, exactly as written:
`[name for name in self.s3_client.list_buckets()['Buckets']['Name']]`.
The provider response is passed in as the `PyVal` the mocked
`s3_client.list_buckets()` call returns. -/
def list_buckets (response : PyVal) : Except PyErr (List PyVal) := do
  let buckets ← getItem response (.str "Buckets")
  let names ← getItem buckets (.str "Name")
  pyIterate names

/-- A mocked `s3_client.list_buckets()` response holding two named bucket
records: `{'Buckets': [{'Name': 'b1'}, {'Name': 'b2'}]}`. -/
def twoBucketResponse : PyVal :=
  .dict [("Buckets", .list [.dict [("Name", .str "b1")], .dict [("Name", .str "b2")]])]

/-- One statement of the S3 access policy document built by
`create_iam_s3_access_policy`. -/
structure PolicyStatement where
  Sid : String
  Effect : String
  Action : List String
  Resource : List String
  deriving Repr, DecidableEq

/-- The policy document: a version string and a list of statements. -/
structure PolicyDoc where
  Version : String
  Statement : List PolicyStatement
  deriving Repr, DecidableEq

/-- The policy document built by `create_iam_s3_access_policy` from the bucket
name list (source lines 51-71): bucket-level ARNs in the first statement,
object-level `/*` ARNs in the second. -/
def s3AccessPolicyDoc (bucket_name_list : List String) : PolicyDoc :=
  let primary_resource_list := bucket_name_list.map (fun bucket => "arn:aws:s3:::" ++ bucket)
  let secondary_resource_list := bucket_name_list.map (fun bucket => "arn:aws:s3:::" ++ bucket ++ "/*")
  { Version := "2012-10-17",
    Statement :=
      [{ Sid := "AllowListingOfUserFolder",
         Effect := "Allow",
         Action := ["s3:ListBucket", "s3:GetBucketLocation"],
         Resource := primary_resource_list },
       { Sid := "HomeDirAccess",
         Effect := "Allow",
         Action := ["s3:PutObject", "s3:GetObject", "s3:DeleteObject",
                    "s3:DeleteObjectVersion", "s3:GetObjectVersion",
                    "s3:GetObjectACL", "s3:PutObjectACL"],
         Resource := secondary_resource_list }] }

/-- A policy record as the IAM API returns it: the fields of
`response['Policy']` (and of each entry of `list_policies()['Policies']`)
that the code reads. -/
structure PolicyRecord where
  PolicyName : String
  Arn : String
  deriving Repr, DecidableEq

/-- A role record as the IAM API returns it: the fields of
`response['Role']` that the code reads. -/
structure RoleRecord where
  RoleName : String
  Arn : String
  deriving Repr, DecidableEq

/-- One statement of the trust policy built by `create_role_and_attach_policy`:
a service principal allowed to assume the role. -/
structure TrustStatement where
  Sid : String
  Effect : String
  PrincipalService : String
  Action : String
  deriving Repr, DecidableEq

/-- The trust policy document: a version string and a list of statements. -/
structure TrustPolicy where
  Version : String
  Statement : List TrustStatement
  deriving Repr, DecidableEq

/-- The trust relationship document built by `create_role_and_attach_policy`
(source lines 90-102). -/
def trustRelationships (service : String) : TrustPolicy :=
  { Version := "2012-10-17",
    Statement :=
      [{ Sid := "Permit",
         Effect := "Allow",
         PrincipalService := service ++ ".amazonaws.com",
         Action := "sts:AssumeRole" }] }

/-- The behaviour of `self.iam_client`: each SDK call the code makes, as a
function from the arguments the code passes to the provider's response.
`list_policies` is the single page `list_policies()['Policies']` the code
reads (it never paginates). -/
structure IamProvider where
  create_policy : String → PolicyDoc → Except ClientError PolicyRecord
  list_policies : List PolicyRecord
  create_role : String → TrustPolicy → Except ClientError RoleRecord
  get_role : String → Except ClientError RoleRecord
  attach_role_policy : String → String → Except ClientError Unit

/-- The recovery scan of `create_iam_s3_access_policy` (source lines 79-83):
`i = 0; while policies[i]['PolicyName'] != policy_name: i += 1`, then
`policies[i]`.  When `i` runs past the end of the list the subscript in the
loop condition raises IndexError. -/
def policyScan : List PolicyRecord → String → Except PyErr PolicyRecord
  | [], _ => .error .indexError
  | p :: ps, policy_name =>
      if p.PolicyName == policy_name then .ok p else policyScan ps policy_name

/-- `DataLake.create_iam_s3_access_policy` (source lines 50-87): build the
policy document, try `create_policy`; on a `ClientError` with code
`EntityAlreadyExists` recover by scanning `list_policies()['Policies']` for
the name, on any other `ClientError` re-raise.  Returns
`(response['PolicyName'], response['Arn'])`. -/
def create_iam_s3_access_policy (iam_client : IamProvider) (bucket_name_list : List String)
    (policy_name : String) : Except PyErr (String × String) :=
  let policy := s3AccessPolicyDoc bucket_name_list
  match iam_client.create_policy policy_name policy with
  | .ok response => .ok (response.PolicyName, response.Arn)
  | .error e =>
      if e.code == "EntityAlreadyExists" then
        match policyScan iam_client.list_policies policy_name with
        | .ok response => .ok (response.PolicyName, response.Arn)
        | .error err => .error err
      else
        .error (.clientError e)

/-- The attachment loop of `create_role_and_attach_policy` (source lines
115-121): for each ARN, try `attach_role_policy`; a `ClientError` is logged
and the loop continues.  Returns the list of ARNs for which an attach call
was issued. -/
def attachLoop (iam_client : IamProvider) (iam_role_name : String) : List String → List String
  | [] => []
  | policy_arn :: rest =>
      match iam_client.attach_role_policy iam_role_name policy_arn with
      | .ok _ => policy_arn :: attachLoop iam_client iam_role_name rest
      | .error _ => policy_arn :: attachLoop iam_client iam_role_name rest

/-- `DataLake.create_role_and_attach_policy` (source lines 89-125): build the
trust policy, try `create_role`; on `EntityAlreadyExists` fetch the existing
role with `get_role`, on any other `ClientError` re-raise.  Then attach each
provided policy ARN (errors logged, not raised).  Returns the
`(RoleName, Arn)` pair together with the list of ARNs the loop attempted. -/
def create_role_and_attach_policy (iam_client : IamProvider) (service iam_role_name : String)
    (policies_arn : Option (List String)) :
    Except PyErr ((String × String) × List String) :=
  let trust := trustRelationships service
  let response_role : Except PyErr RoleRecord :=
    match iam_client.create_role iam_role_name trust with
    | .ok r => .ok r
    | .error e =>
        if e.code == "EntityAlreadyExists" then
          match iam_client.get_role iam_role_name with
          | .ok r => .ok r
          | .error e2 => .error (.clientError e2)
        else .error (.clientError e)
  match response_role with
  | .error e => .error e
  | .ok role =>
      let attempted :=
        match policies_arn with
        | some arns => attachLoop iam_client iam_role_name arns
        | none => []
      .ok ((role.RoleName, role.Arn), attempted)

/-- The instance state of a `DataLake` object that the embedded methods read
or write: the configured region and the cached transfer-server ID
(`self.server_id`, `None` on construction). -/
structure DataLake where
  region : String
  server_id : Option String
  deriving Repr, DecidableEq

/-- `DataLake.create_bucket` (source lines 23-39): call
`s3_client.create_bucket(Bucket=bucket_name,
CreateBucketConfiguration={'LocationConstraint': self.region})`; a
`ClientError` is logged and the method returns `False`, otherwise it returns
`True`.  The provider call is passed in as a function of the bucket name and
the location constraint. -/
def create_bucket (st : DataLake) (s3_create_bucket : String → String → Except ClientError Unit)
    (bucket_name : String) : Bool :=
  match s3_create_bucket bucket_name st.region with
  | .ok _ => true
  | .error _ => false

/-- The keyword arguments `create_sftp_transfer_server` passes to
`transfer_client.create_server` (source lines 130-136). -/
structure CreateServerRequest where
  Domain : String
  EndpointType : String
  Protocols : List String
  IdentityProviderType : String
  SecurityPolicyName : String
  LoggingRole : String
  deriving Repr, DecidableEq

/-- The `create_server` response fields the code reads: `response['ServerId']`. -/
structure ServerResponse where
  ServerId : String
  deriving Repr, DecidableEq

/-- The request `create_sftp_transfer_server` issues: the caller's `kwargs`
when `custom_config` is set, otherwise the fixed default profile
(source lines 129-136). -/
def create_server_request (logging_role_arn : String) (custom_config : Bool)
    (kwargs : CreateServerRequest) : CreateServerRequest :=
  if custom_config then kwargs
  else
    { Domain := "S3",
      EndpointType := "PUBLIC",
      Protocols := ["SFTP"],
      IdentityProviderType := "SERVICE_MANAGED",
      SecurityPolicyName := "TransferSecurityPolicy-2020-06",
      LoggingRole := logging_role_arn }

/-- `DataLake.create_sftp_transfer_server` (source lines 127-142): call
`create_server`; a `ClientError` is logged and re-raised (before
`self.server_id` is assigned, so the state is unchanged); on success
`self.server_id = response['ServerId']` and that ID is returned.  The result
pairs the returned-or-raised value with the instance state after the call. -/
def create_sftp_transfer_server (st : DataLake)
    (transfer_create_server : CreateServerRequest → Except ClientError ServerResponse)
    (logging_role_arn : String) (custom_config : Bool) (kwargs : CreateServerRequest) :
    Except ClientError String × DataLake :=
  match transfer_create_server (create_server_request logging_role_arn custom_config kwargs) with
  | .error e => (.error e, st)
  | .ok response => (.ok response.ServerId, { st with server_id := some response.ServerId })

/-- The keyword arguments `add_user` passes to `transfer_client.create_user`
(source lines 148-153).  `ServerId` is `None` when neither the caller nor the
instance supplies a server ID. -/
structure CreateUserRequest where
  UserName : String
  HomeDirectoryType : String
  HomeDirectoryMappings : List (String × String)
  Role : String
  SshPublicKeyBody : String
  ServerId : Option String
  deriving Repr, DecidableEq

/-- The `create_user` response fields: the code returns the response as-is. -/
structure UserResponse where
  UserName : String
  ServerId : String
  deriving Repr, DecidableEq

/-- The request `add_user` composes (source lines 144-153): when the
`server_id` argument is `None` it falls back to the cached
`self.server_id`. -/
def add_user_request (st : DataLake) (user_name access_role_arn public_key : String)
    (directory_mappings : List (String × String)) (server_id : Option String) :
    CreateUserRequest :=
  let server_id := match server_id with
    | none => st.server_id
    | some s => some s
  { UserName := user_name,
    HomeDirectoryType := "LOGICAL",
    HomeDirectoryMappings := directory_mappings,
    Role := access_role_arn,
    SshPublicKeyBody := public_key,
    ServerId := server_id }

/-- `DataLake.add_user` (source lines 144-158): issue `create_user` with the
composed request; a `ClientError` is logged and re-raised, otherwise the
response is returned. -/
def add_user (st : DataLake)
    (transfer_create_user : CreateUserRequest → Except ClientError UserResponse)
    (user_name access_role_arn public_key : String)
    (directory_mappings : List (String × String)) (server_id : Option String) :
    Except ClientError UserResponse :=
  transfer_create_user (add_user_request st user_name access_role_arn public_key
    directory_mappings server_id)

/-- Fuel-bounded unrolling of the status-poll loop in `establish_sftp`
(source lines 179-182).  `desrcribe_server i` is the `['Server']['State']`
field of the response to the i-th poll (0-indexed); the typo in the call name
is the source's.  `pollLoop d fuel i` runs the loop from the i-th poll with
at most `fuel` further iterations allowed: it returns the total number of
polls issued when the loop exits, and `none` when the loop is still running
after the fuel is spent. -/
def pollLoop (desrcribe_server : Nat → String) : Nat → Nat → Option Nat
  | 0, i => if desrcribe_server i == "ONLINE" then some (i + 1) else none
  | fuel + 1, i =>
      if desrcribe_server i == "ONLINE" then some (i + 1)
      else pollLoop desrcribe_server fuel (i + 1)

/-- The polling phase of `DataLake.establish_sftp`: one unconditional poll
(source line 179) followed by the `while server_status != 'ONLINE'` loop
(source lines 180-181), bounded by `fuel` loop iterations. -/
def establish_sftp_poll (desrcribe_server : Nat → String) (fuel : Nat) : Option Nat :=
  pollLoop desrcribe_server fuel 0

/-! Concrete fixtures: mocked providers and states used to instantiate the
theorems below on closed inputs. -/

/-- A provider error with code `EntityAlreadyExists`. -/
def errExists : ClientError := { code := "EntityAlreadyExists", message := "already exists" }

/-- A provider error with a code other than `EntityAlreadyExists`. -/
def errDenied : ClientError := { code := "AccessDenied", message := "denied" }

/-- A fresh `DataLake` instance: region set, no cached server ID. -/
def lake0 : DataLake := { region := "eu-central-1", server_id := none }

/-- An S3 client whose `create_bucket` call always succeeds. -/
def s3AlwaysOk : String → String → Except ClientError Unit := fun _ _ => .ok ()

/-- An S3 client whose `create_bucket` call always raises `AccessDenied`. -/
def s3AlwaysDenied : String → String → Except ClientError Unit := fun _ _ => .error errDenied

/-- An IAM mock whose create calls report `EntityAlreadyExists`, whose policy
listing holds the requested name `p` (after an unrelated entry), and whose
`get_role` succeeds. -/
def iamConflict : IamProvider :=
  { create_policy := fun _ _ => .error errExists,
    list_policies := [{ PolicyName := "other", Arn := "arn:aws:iam::1:policy/other" },
                      { PolicyName := "p", Arn := "arn:aws:iam::1:policy/p" }],
    create_role := fun _ _ => .error errExists,
    get_role := fun n => .ok { RoleName := n, Arn := "arn:aws:iam::1:role/r" },
    attach_role_policy := fun _ _ => .ok () }

/-- An IAM mock whose create calls raise an unrecoverable `AccessDenied`. -/
def iamDenied : IamProvider :=
  { create_policy := fun _ _ => .error errDenied,
    list_policies := [],
    create_role := fun _ _ => .error errDenied,
    get_role := fun _ => .error errDenied,
    attach_role_policy := fun _ _ => .ok () }

/-- An IAM mock whose create calls report `EntityAlreadyExists` but whose
single listed policy does not carry the requested name. -/
def iamNoMatch : IamProvider :=
  { create_policy := fun _ _ => .error errExists,
    list_policies := [{ PolicyName := "other", Arn := "arn:aws:iam::1:policy/other" }],
    create_role := fun _ _ => .error errExists,
    get_role := fun _ => .error errDenied,
    attach_role_policy := fun _ _ => .ok () }

/-- An IAM mock whose role creation succeeds and whose every policy
attachment raises `AccessDenied`. -/
def iamAttachFails : IamProvider :=
  { create_policy := fun n _ => .ok { PolicyName := n, Arn := "arn:aws:iam::1:policy/ok" },
    list_policies := [],
    create_role := fun n _ => .ok { RoleName := n, Arn := "arn:aws:iam::1:role/ok" },
    get_role := fun n => .ok { RoleName := n, Arn := "arn:aws:iam::1:role/ok" },
    attach_role_policy := fun _ _ => .error errDenied }

/-- A transfer mock whose `create_server` call returns server ID `s-123`. -/
def transferOk : CreateServerRequest → Except ClientError ServerResponse :=
  fun _ => .ok { ServerId := "s-123" }

/-- A transfer mock whose `create_server` call raises `AccessDenied`. -/
def transferDenied : CreateServerRequest → Except ClientError ServerResponse :=
  fun _ => .error errDenied

/-- A transfer mock whose `create_user` call echoes the request it was
issued with. -/
def transferUserEcho : CreateUserRequest → Except ClientError UserResponse :=
  fun req => .ok { UserName := req.UserName, ServerId := req.ServerId.getD "" }

/-- A caller-supplied `kwargs` profile for the `custom_config` path. -/
def kwargs0 : CreateServerRequest :=
  { Domain := "S3",
    EndpointType := "PUBLIC",
    Protocols := ["SFTP"],
    IdentityProviderType := "SERVICE_MANAGED",
    SecurityPolicyName := "TransferSecurityPolicy-2020-06",
    LoggingRole := "arn:aws:iam::1:role/log" }

/-! Helper lemmas about the recovery scan, the attachment loop and the
polling loop. -/

/-- The while-loop scan returns exactly the first listed policy carrying the
requested name, whenever one exists. -/
theorem policyScan_of_find (l : List PolicyRecord) (name : String) (p : PolicyRecord)
    (h : l.find? (fun q => q.PolicyName == name) = some p) :
    policyScan l name = .ok p := by
  induction l with
  | nil => simp at h
  | cons a t ih =>
      cases hb : a.PolicyName == name with
      | true =>
          simp only [List.find?_cons, hb] at h
          cases h
          simp [policyScan, hb]
      | false =>
          simp only [List.find?_cons, hb] at h
          simp only [policyScan]
          rw [if_neg (by simp [hb])]
          exact ih h

/-- When no listed policy carries the requested name, the while-loop scan
runs past the end of the list and raises IndexError. -/
theorem policyScan_of_no_match (l : List PolicyRecord) (name : String)
    (h : ∀ p ∈ l, p.PolicyName ≠ name) :
    policyScan l name = .error .indexError := by
  induction l with
  | nil => rfl
  | cons a t ih =>
      have ha : ¬(a.PolicyName == name) = true := by
        simpa using h a (List.mem_cons_self a t)
      simp only [policyScan]
      rw [if_neg ha]
      exact ih (fun p hp => h p (List.mem_cons_of_mem a hp))

/-- The attachment loop issues an attach call for every ARN in the list,
whatever the outcome of each call. -/
theorem attachLoop_attempts_all (iam : IamProvider) (n : String) (arns : List String) :
    attachLoop iam n arns = arns := by
  induction arns with
  | nil => rfl
  | cons a t ih =>
      cases h : iam.attach_role_policy n a <;> simp [attachLoop, h, ih]

/-- A poll that reports ONLINE exits the loop at once, for any fuel. -/
theorem pollLoop_online (d : Nat → String) (fuel i : Nat) (h : d i = "ONLINE") :
    pollLoop d fuel i = some (i + 1) := by
  cases fuel <;> simp [pollLoop, h]

/-- When the (i+n)-th poll is the first at or after i to report ONLINE, the
loop started at i exits after exactly n more iterations, given fuel for
them. -/
theorem pollLoop_exits (d : Nat → String) :
    ∀ (n fuel i : Nat), d (i + n) = "ONLINE" → (∀ k, k < n → d (i + k) ≠ "ONLINE") →
      n ≤ fuel → pollLoop d fuel i = some (i + n + 1) := by
  intro n
  induction n with
  | zero =>
      intro fuel i h _ _
      simpa using pollLoop_online d fuel i (by simpa using h)
  | succ m ih =>
      intro fuel i h hpre hle
      cases fuel with
      | zero => omega
      | succ f =>
          have hi : d i ≠ "ONLINE" := by simpa using hpre 0 (Nat.succ_pos m)
          have hstep : pollLoop d (f + 1) i = pollLoop d f (i + 1) := by
            simp [pollLoop, hi]
          have h' : d ((i + 1) + m) = "ONLINE" := by
            have he : (i + 1) + m = i + (m + 1) := by omega
            rw [he]; exact h
          have hpre' : ∀ k, k < m → d ((i + 1) + k) ≠ "ONLINE" := by
            intro k hk
            have he : (i + 1) + k = i + (k + 1) := by omega
            rw [he]; exact hpre (k + 1) (by omega)
          rw [hstep, ih f (i + 1) h' hpre' (by omega)]
          congr 1
          omega

/-- When no poll ever reports ONLINE, the loop is still running whatever the
fuel. -/
theorem pollLoop_never (d : Nat → String) (h : ∀ k, d k ≠ "ONLINE") :
    ∀ (fuel i : Nat), pollLoop d fuel i = none := by
  intro fuel
  induction fuel with
  | zero => intro i; simp [pollLoop, h i]
  | succ f ih => intro i; simp [pollLoop, h i, ih]

/-! The claims. -/

/-- C1: for every list of bucket names, the policy document built by
`create_iam_s3_access_policy` has exactly two statements, whose resource
lists are the bucket-level and the object-level ARNs in the order of the
input list; in particular for `["b1", "b2"]` the first statement's
resource list is `["arn:aws:s3:::b1", "arn:aws:s3:::b2"]` and the second's
is `["arn:aws:s3:::b1/*", "arn:aws:s3:::b2/*"]`. -/
theorem s3_policy_two_statements_and_resources :
    (∀ bucket_name_list : List String,
        (s3AccessPolicyDoc bucket_name_list).Statement.length = 2 ∧
        (s3AccessPolicyDoc bucket_name_list).Statement.map PolicyStatement.Resource =
          [bucket_name_list.map (fun bucket => "arn:aws:s3:::" ++ bucket),
           bucket_name_list.map (fun bucket => "arn:aws:s3:::" ++ bucket ++ "/*")]) ∧
    (s3AccessPolicyDoc ["b1", "b2"]).Statement.map PolicyStatement.Resource =
      [["arn:aws:s3:::b1", "arn:aws:s3:::b2"],
       ["arn:aws:s3:::b1/*", "arn:aws:s3:::b2/*"]] :=
  ⟨fun _ => ⟨rfl, rfl⟩, rfl⟩

/-- C2: on the mocked response `{'Buckets': [{'Name': 'b1'}, {'Name': 'b2'}]}`
the body of `list_buckets` subscripts the bucket list with the string
`'Name'`, which raises TypeError; the method therefore returns no value at
all — in particular not the two bucket names. -/
theorem list_buckets_raises_type_error :
    list_buckets twoBucketResponse = .error (.typeError "list indices must be integers") :=
  rfl

/-- C3: `create_bucket` returns `True` exactly when the provider's
create-bucket call succeeds and `False` when it raises a `ClientError`;
in both cases a boolean is returned, so the provider error never reaches
the caller. -/
theorem create_bucket_true_false :
    ∀ (st : DataLake) (s3_create_bucket : String → String → Except ClientError Unit)
      (bucket_name : String),
      (∀ u, s3_create_bucket bucket_name st.region = .ok u →
        create_bucket st s3_create_bucket bucket_name = true) ∧
      (∀ e, s3_create_bucket bucket_name st.region = .error e →
        create_bucket st s3_create_bucket bucket_name = false) := by
  intro st s3 b
  exact ⟨fun u h => by simp [create_bucket, h], fun e h => by simp [create_bucket, h]⟩

/-- Witness for C3: a provider that succeeds yields `True`, one that raises
`AccessDenied` yields `False`. -/
theorem create_bucket_true_false_witness :
    create_bucket lake0 s3AlwaysOk "b1" = true ∧
    create_bucket lake0 s3AlwaysDenied "b1" = false :=
  ⟨(create_bucket_true_false lake0 s3AlwaysOk "b1").1 () rfl,
   (create_bucket_true_false lake0 s3AlwaysDenied "b1").2 errDenied rfl⟩

/-- C4: when `create_policy` raises `EntityAlreadyExists`,
`create_iam_s3_access_policy` returns the `(PolicyName, Arn)` pair of the
first listed policy carrying the requested name — exactly what scanning the
provider's policy listing finds; any other provider error is propagated. -/
theorem create_iam_policy_conflict_recovery :
    (∀ (iam : IamProvider) (buckets : List String) (name : String) (e : ClientError)
        (p : PolicyRecord),
        iam.create_policy name (s3AccessPolicyDoc buckets) = .error e →
        e.code = "EntityAlreadyExists" →
        iam.list_policies.find? (fun q => q.PolicyName == name) = some p →
        create_iam_s3_access_policy iam buckets name = .ok (p.PolicyName, p.Arn)) ∧
    (∀ (iam : IamProvider) (buckets : List String) (name : String) (e : ClientError),
        iam.create_policy name (s3AccessPolicyDoc buckets) = .error e →
        e.code ≠ "EntityAlreadyExists" →
        create_iam_s3_access_policy iam buckets name = .error (.clientError e)) := by
  constructor
  · intro iam buckets name e p hc hcode hfind
    have hscan := policyScan_of_find iam.list_policies name p hfind
    simp [create_iam_s3_access_policy, hc, hcode, hscan]
  · intro iam buckets name e hc hcode
    simp [create_iam_s3_access_policy, hc, hcode]

/-- Witness for C4: on a mock whose creation call reports the conflict and
whose listing holds `p` in second position, the recovered pair is `p`'s; on
a mock raising `AccessDenied` the error is propagated. -/
theorem create_iam_policy_conflict_recovery_witness :
    create_iam_s3_access_policy iamConflict ["b1"] "p" = .ok ("p", "arn:aws:iam::1:policy/p") ∧
    create_iam_s3_access_policy iamDenied ["b1"] "p" = .error (.clientError errDenied) :=
  ⟨create_iam_policy_conflict_recovery.1 iamConflict ["b1"] "p" errExists
      { PolicyName := "p", Arn := "arn:aws:iam::1:policy/p" } rfl rfl rfl,
   create_iam_policy_conflict_recovery.2 iamDenied ["b1"] "p" errDenied rfl (by decide)⟩

/-- C5: when `create_role` raises `EntityAlreadyExists`,
`create_role_and_attach_policy` fetches the existing role with `get_role`
and returns its `(RoleName, Arn)`; a provider error with any other code is
propagated to the caller. -/
theorem create_role_conflict_and_propagation :
    (∀ (iam : IamProvider) (service name : String) (policies_arn : Option (List String))
        (e : ClientError) (r : RoleRecord),
        iam.create_role name (trustRelationships service) = .error e →
        e.code = "EntityAlreadyExists" →
        iam.get_role name = .ok r →
        create_role_and_attach_policy iam service name policies_arn =
          .ok ((r.RoleName, r.Arn), policies_arn.getD [])) ∧
    (∀ (iam : IamProvider) (service name : String) (policies_arn : Option (List String))
        (e : ClientError),
        iam.create_role name (trustRelationships service) = .error e →
        e.code ≠ "EntityAlreadyExists" →
        create_role_and_attach_policy iam service name policies_arn =
          .error (.clientError e)) := by
  constructor
  · intro iam service name arns e r hc hcode hget
    cases arns <;>
      simp [create_role_and_attach_policy, hc, hcode, hget, attachLoop_attempts_all]
  · intro iam service name arns e hc hcode
    simp [create_role_and_attach_policy, hc, hcode]

/-- Witness for C5: on the conflicting mock the existing role's pair is
returned (with no attachments requested); on the `AccessDenied` mock the
error is propagated. -/
theorem create_role_conflict_and_propagation_witness :
    create_role_and_attach_policy iamConflict "transfer" "r1" none =
      .ok (("r1", "arn:aws:iam::1:role/r"), []) ∧
    create_role_and_attach_policy iamDenied "transfer" "r1" none =
      .error (.clientError errDenied) :=
  ⟨create_role_conflict_and_propagation.1 iamConflict "transfer" "r1" none errExists
      { RoleName := "r1", Arn := "arn:aws:iam::1:role/r" } rfl rfl rfl,
   create_role_conflict_and_propagation.2 iamDenied "transfer" "r1" none errDenied rfl
      (by decide)⟩

/-- C6: when the role is created and some policy attachment raises a
`ClientError`, the error is not raised: every ARN of the list is still
attempted and the function still returns the role's `(RoleName, Arn)`. -/
theorem attach_failures_logged_not_raised :
    ∀ (iam : IamProvider) (service name : String) (arns : List String) (r : RoleRecord)
      (a : String) (err : ClientError),
      iam.create_role name (trustRelationships service) = .ok r →
      a ∈ arns →
      iam.attach_role_policy name a = .error err →
      create_role_and_attach_policy iam service name (some arns) =
        .ok ((r.RoleName, r.Arn), arns) := by
  intro iam service name arns r a err hcr _ _
  simp [create_role_and_attach_policy, hcr, attachLoop_attempts_all]

/-- Witness for C6: on a mock whose every attachment raises `AccessDenied`,
both ARNs are attempted and the role pair is still returned. -/
theorem attach_failures_logged_not_raised_witness :
    create_role_and_attach_policy iamAttachFails "transfer" "r1"
        (some ["arn:aws:iam::1:policy/a", "arn:aws:iam::1:policy/b"]) =
      .ok (("r1", "arn:aws:iam::1:role/ok"),
           ["arn:aws:iam::1:policy/a", "arn:aws:iam::1:policy/b"]) :=
  attach_failures_logged_not_raised iamAttachFails "transfer" "r1"
    ["arn:aws:iam::1:policy/a", "arn:aws:iam::1:policy/b"]
    { RoleName := "r1", Arn := "arn:aws:iam::1:role/ok" }
    "arn:aws:iam::1:policy/a" errDenied rfl (by simp) rfl

/-- C10: when the creation call reports `EntityAlreadyExists` but no policy
of the single listed page carries the requested name, the recovery scan of
`create_iam_s3_access_policy` runs past the end of the list and the call
fails with IndexError instead of returning a pair. -/
theorem create_iam_policy_scan_index_error :
    ∀ (iam : IamProvider) (buckets : List String) (name : String) (e : ClientError),
      iam.create_policy name (s3AccessPolicyDoc buckets) = .error e →
      e.code = "EntityAlreadyExists" →
      (∀ p ∈ iam.list_policies, p.PolicyName ≠ name) →
      create_iam_s3_access_policy iam buckets name = .error .indexError := by
  intro iam buckets name e hc hcode hno
  have hscan := policyScan_of_no_match iam.list_policies name hno
  simp [create_iam_s3_access_policy, hc, hcode, hscan]

/-- Witness for C10: on a mock whose only listed policy is named `other`,
requesting `p` ends in IndexError. -/
theorem create_iam_policy_scan_index_error_witness :
    create_iam_s3_access_policy iamNoMatch ["b1"] "p" = .error .indexError :=
  create_iam_policy_scan_index_error iamNoMatch ["b1"] "p" errExists rfl rfl (by decide)

/-- C7: after `create_sftp_transfer_server` returns server ID `S`, a call to
`add_user` with `server_id` omitted composes its create-user request with
`ServerId = S` (and issues exactly that request to the provider); an
explicitly supplied `server_id` is used instead. -/
theorem add_user_uses_cached_server_id :
    ∀ (st st2 : DataLake) (tc : CreateServerRequest → Except ClientError ServerResponse)
      (logging_role_arn : String) (custom_config : Bool) (kwargs : CreateServerRequest)
      (S : String) (tu : CreateUserRequest → Except ClientError UserResponse)
      (user_name access_role_arn public_key : String)
      (directory_mappings : List (String × String)) (sid : String),
      create_sftp_transfer_server st tc logging_role_arn custom_config kwargs = (.ok S, st2) →
      ((add_user_request st2 user_name access_role_arn public_key
          directory_mappings none).ServerId = some S ∧
       add_user st2 tu user_name access_role_arn public_key directory_mappings none =
         tu (add_user_request st2 user_name access_role_arn public_key
              directory_mappings none) ∧
       (add_user_request st2 user_name access_role_arn public_key
          directory_mappings (some sid)).ServerId = some sid) := by
  intro st st2 tc arn cfg kwargs S tu u role key maps sid h
  have hs : st2.server_id = some S := by
    unfold create_sftp_transfer_server at h
    cases htc : tc (create_server_request arn cfg kwargs) with
    | error e => rw [htc] at h; simp at h
    | ok resp =>
        rw [htc] at h
        simp only [Prod.mk.injEq, Except.ok.injEq] at h
        rw [← h.2]
        simp [h.1]
  refine ⟨?_, rfl, ?_⟩
  · simp [add_user_request, hs]
  · simp [add_user_request]

/-- Witness for C7: after creating server `s-123` on a fresh instance, the
defaulted request targets `s-123` while an explicit `s-9` overrides it. -/
theorem add_user_uses_cached_server_id_witness :
    (add_user_request { region := "eu-central-1", server_id := some "s-123" }
        "u1" "arn:aws:iam::1:role/access" "ssh-rsa AAA" [("/", "/b1")] none).ServerId =
      some "s-123" ∧
    add_user { region := "eu-central-1", server_id := some "s-123" } transferUserEcho
        "u1" "arn:aws:iam::1:role/access" "ssh-rsa AAA" [("/", "/b1")] none =
      transferUserEcho (add_user_request { region := "eu-central-1", server_id := some "s-123" }
        "u1" "arn:aws:iam::1:role/access" "ssh-rsa AAA" [("/", "/b1")] none) ∧
    (add_user_request { region := "eu-central-1", server_id := some "s-123" }
        "u1" "arn:aws:iam::1:role/access" "ssh-rsa AAA" [("/", "/b1")] (some "s-9")).ServerId =
      some "s-9" :=
  add_user_uses_cached_server_id lake0 { region := "eu-central-1", server_id := some "s-123" }
    transferOk "arn:aws:iam::1:role/log" false kwargs0 "s-123" transferUserEcho
    "u1" "arn:aws:iam::1:role/access" "ssh-rsa AAA" [("/", "/b1")] "s-9" rfl

/-- C8: on provider success `create_sftp_transfer_server` stores the returned
server ID in `server_id` and returns that same ID; on a provider
`ClientError` it raises and `server_id` is left unchanged. -/
theorem create_sftp_transfer_server_state :
    ∀ (st : DataLake) (tc : CreateServerRequest → Except ClientError ServerResponse)
      (logging_role_arn : String) (custom_config : Bool) (kwargs : CreateServerRequest),
      (∀ resp, tc (create_server_request logging_role_arn custom_config kwargs) = .ok resp →
        create_sftp_transfer_server st tc logging_role_arn custom_config kwargs =
          (.ok resp.ServerId, { st with server_id := some resp.ServerId })) ∧
      (∀ e, tc (create_server_request logging_role_arn custom_config kwargs) = .error e →
        create_sftp_transfer_server st tc logging_role_arn custom_config kwargs =
          (.error e, st)) := by
  intro st tc arn cfg kwargs
  constructor
  · intro resp h; simp [create_sftp_transfer_server, h]
  · intro e h; simp [create_sftp_transfer_server, h]

/-- Witness for C8: the succeeding mock stores and returns `s-123`; the
failing mock raises `AccessDenied` and leaves the fresh state intact. -/
theorem create_sftp_transfer_server_state_witness :
    create_sftp_transfer_server lake0 transferOk "arn:aws:iam::1:role/log" false kwargs0 =
      (.ok "s-123", { region := "eu-central-1", server_id := some "s-123" }) ∧
    create_sftp_transfer_server lake0 transferDenied "arn:aws:iam::1:role/log" false kwargs0 =
      (.error errDenied, lake0) :=
  ⟨(create_sftp_transfer_server_state lake0 transferOk "arn:aws:iam::1:role/log" false
      kwargs0).1 { ServerId := "s-123" } rfl,
   (create_sftp_transfer_server_state lake0 transferDenied "arn:aws:iam::1:role/log" false
      kwargs0).2 errDenied rfl⟩

/-- C9: when the N-th status poll is the first to report ONLINE, the polling
loop of `establish_sftp` exits after exactly N polls (given fuel for its
iterations, since the code bounds nothing); and for a status sequence that
never reports ONLINE the loop is still running whatever fuel it is granted,
i.e. it does not terminate. -/
theorem establish_sftp_poll_termination :
    (∀ (desrcribe_server : Nat → String) (N : Nat), 0 < N →
        desrcribe_server (N - 1) = "ONLINE" →
        (∀ k, k < N - 1 → desrcribe_server k ≠ "ONLINE") →
        ∀ fuel, N - 1 ≤ fuel → establish_sftp_poll desrcribe_server fuel = some N) ∧
    (∀ desrcribe_server : Nat → String, (∀ k, desrcribe_server k ≠ "ONLINE") →
        ∀ fuel, establish_sftp_poll desrcribe_server fuel = none) := by
  constructor
  · intro d N hN hon hpre fuel hle
    have h := pollLoop_exits d (N - 1) fuel 0 (by simpa using hon) (by simpa using hpre) hle
    simpa [establish_sftp_poll, Nat.sub_add_cancel hN] using h
  · intro d h fuel
    exact pollLoop_never d h fuel 0

/-- Witness for C9: a mock that turns ONLINE on its third poll exits after
exactly 3 polls; a mock stuck on STARTING never lets the loop exit. -/
theorem establish_sftp_poll_termination_witness :
    establish_sftp_poll (fun k => if k < 2 then "STARTING" else "ONLINE") 2 = some 3 ∧
    establish_sftp_poll (fun _ => "STARTING") 5 = none :=
  ⟨establish_sftp_poll_termination.1 (fun k => if k < 2 then "STARTING" else "ONLINE") 3
      (by decide) (by decide) (by decide) 2 (by decide),
   establish_sftp_poll_termination.2 (fun _ => "STARTING")
      (fun k h => absurd (show "STARTING" = "ONLINE" from h) (by decide)) 5⟩

end AwsLake
